import Mathlib

/-!
Verification of the nilrt-snac execution-and-audit framework.

This file gives a shallow embedding of the repository's output-capture and
audit-logging subsystem (`nilrt_snac/_logging.py`) and of the configuration
modules (`nilrt_snac/_configs/*.py`), and proves (or refutes) the behavioural
claims of the specification against it.

Modelling conventions:
 * Python exceptions become an explicit `PyExc` sum type; code that can raise
   returns `Except PyExc _`.
 * External side effects (subprocess invocations, file writes, package-manager
   calls, prints, structured-log calls) become values of the `Effect`
   inductive; a computation accumulates its effect trace in order.
 * Environment structures supply the data the code reads from the outside
   world (command outputs, exit codes, filesystem predicates), so every
   definition stays executable and every branch of the source is represented.
-/

namespace NilrtSnac

/-- Python exceptions that the modelled code can raise or catch. -/
inductive PyExc where
  /-- A generic `OSError` with a message (e.g. permission denied on `os.open`). -/
  | oserror (msg : String)
  /-- `FileExistsError`, raised by `os.open` with `O_EXCL` on an existing path. -/
  | fileExists
  /-- `ValueError`, e.g. from `int()` on a non-numeric string. -/
  | valueError
  /-- `TypeError`, e.g. from calling a function with missing required arguments. -/
  | typeError
  /-- `subprocess.CalledProcessError` carrying the command and its exit code. -/
  | calledProcessError (cmd : List String) (code : Int)
  /-- `FileNotFoundError`, e.g. the executable of a subprocess is absent. -/
  | fileNotFoundError
  deriving DecidableEq, Repr

/-! ## Output Tee (`_TeeStream`, `nilrt_snac/_logging.py` lines 27-89)

`_TeeStream.write` writes `data` to the original console stream and flushes
it, then tries to write and flush the log file; any exception from the
log-file side is caught, and a warning line is written to the original
stream instead.  We record the individual stream operations as an event
trace so ordering claims can be stated. -/

/-- One primitive stream operation performed by the tee. -/
inductive Ev where
  /-- `original_stream.write s` (also used for the warning line). -/
  | cw (s : String)
  /-- `original_stream.flush()`. -/
  | cf
  /-- `log_file.write s` that completed without raising. -/
  | lw (s : String)
  /-- `log_file.flush()` that completed without raising. -/
  | lf
  deriving DecidableEq, Repr

/-- Behaviour of the log file during one `write` call: the outcome of
`log_file.write(data)` (number of chars, or an exception message) and of the
subsequent `log_file.flush()`. -/
structure LogFileBehavior where
  writeRes : Except String Nat
  flushRes : Except String Unit
  deriving Repr

/-- The warning text `_TeeStream.write` emits to the original stream when the
log-file side raised exception `e` (source line 65). -/
def warningText (e : String) : String :=
  "\n[WARNING] Failed to write to log file: " ++ e ++ "\n"

/-- `_TeeStream.write(data)` (source lines 46-67).  The console stream is
modelled as healthy (its own `write` returns `data.length` characters); the
log-file side behaves as `beh` says.  The result is the returned character
count together with the trace of stream operations; the `Except` layer shows
which exceptions escape the call (the `try`/`except` of the source converts
log-side exceptions into a console warning, so none do). -/
def TeeStream.write (beh : LogFileBehavior) (data : String) :
    Except String (Nat × List Ev) :=
  -- write to console first for immediate feedback, then flush it
  let consoleEvs : List Ev := [Ev.cw data, Ev.cf]
  -- try: log_file.write(data); log_file.flush()  except Exception as e: warn
  match beh.writeRes with
  | Except.error e =>
      Except.ok (data.length, consoleEvs ++ [Ev.cw (warningText e)])
  | Except.ok _ =>
      match beh.flushRes with
      | Except.error e =>
          Except.ok (data.length, consoleEvs ++ [Ev.lw data, Ev.cw (warningText e)])
      | Except.ok _ =>
          Except.ok (data.length, consoleEvs ++ [Ev.lw data, Ev.lf])

/-- The event trace of one `write` call (total, since `write` never raises). -/
def TeeStream.writeEvents (beh : LogFileBehavior) (data : String) : List Ev :=
  match TeeStream.write beh data with
  | Except.ok (_, evs) => evs
  | Except.error _ => []

/-- Chunks that reached the original console stream, in order. -/
def consoleChunks (evs : List Ev) : List String :=
  evs.filterMap fun ev =>
    match ev with
    | Ev.cw s => some s
    | _ => none

/-- Chunks that reached the log file, in order. -/
def logChunks (evs : List Ev) : List String :=
  evs.filterMap fun ev =>
    match ev with
    | Ev.lw s => some s
    | _ => none

/-- A sequence of `write` calls through the tee: per call, the log-file
behaviour and the data written.  Returns the concatenated event trace. -/
def teeRun (ws : List (LogFileBehavior × String)) : List Ev :=
  (ws.map fun p => TeeStream.writeEvents p.1 p.2).flatten

/-- The log-file side of behaviour `beh` raises (at write or at flush). -/
def LogFileBehavior.fails (beh : LogFileBehavior) : Prop :=
  beh.writeRes.isOk = false ∨ beh.flushRes.isOk = false

/-- The exception message the log-file side raises first, if any. -/
def LogFileBehavior.failMsg (beh : LogFileBehavior) : Option String :=
  match beh.writeRes with
  | Except.error e => some e
  | Except.ok _ =>
      match beh.flushRes with
      | Except.error e => some e
      | Except.ok _ => none

example :
    TeeStream.write ⟨Except.error "disk full", Except.ok ()⟩ "hi" =
      Except.ok (2, [Ev.cw "hi", Ev.cf, Ev.cw (warningText "disk full")]) := rfl

example :
    teeRun [(⟨Except.ok 1, Except.ok ()⟩, "a"), (⟨Except.ok 1, Except.ok ()⟩, "b")] =
      [Ev.cw "a", Ev.cf, Ev.lw "a", Ev.lf, Ev.cw "b", Ev.cf, Ev.lw "b", Ev.lf] := rfl

/-- Python `s.strip()`: remove leading and trailing whitespace.  (Defined
over the character list so that it evaluates by kernel reduction; Python
also strips `\x0b`/`\x0c`, which never occur in the probed outputs.) -/
def pyStrip (s : String) : String :=
  String.mk (((s.toList.dropWhile Char.isWhitespace).reverse.dropWhile
    Char.isWhitespace).reverse)

/-- Worker for `pySplit`: structural recursion on a fuel bounded by the
length of the remaining text, so it evaluates by kernel reduction. -/
def pySplitGo (sep : List Char) : Nat → List Char → List Char → List (List Char)
  | _, [], acc => [acc.reverse]
  | 0, l, acc => [acc.reverse ++ l]
  | Nat.succ n, c :: rest, acc =>
      if sep.isPrefixOf (c :: rest) then
        acc.reverse :: pySplitGo sep n (List.drop (sep.length - 1) rest) []
      else
        pySplitGo sep n rest (c :: acc)

/-- Python `s.split(sep)` for a non-empty separator (leftmost,
non-overlapping); on an empty separator, the whole string (Lean
`String.splitOn` convention; the sources never split on an empty string). -/
def pySplit (s sep : String) : List String :=
  if sep.isEmpty then [s]
  else (pySplitGo sep.toList s.toList.length s.toList []).map String.mk

/-- ASCII upper-casing (`str.upper()` on the ASCII command names used). -/
def pyUpper (s : String) : String :=
  String.mk (s.toList.map fun c =>
    if c.isLower then Char.ofNat (c.toNat - 32) else c)

example : pySplit "a@b.c" "@" = ["a", "b.c"] := rfl
example : pySplit "x--y--" "--" = ["x", "y", ""] := rfl
example : pyStrip "  False\n" = "False" := rfl
example : pyUpper "configure" = "CONFIGURE" := rfl

/-! ## Timestamps and log filenames (`_generate_log_filename`, lines 107-118)

`datetime.datetime.now().strftime("%Y%m%d-%H%M%S")` renders the local time
with zero-padded fixed-width fields (4 digits for the year in the realistic
1000-9999 range, 2 for each other field).  We model a wall-clock reading at
second granularity as a record of those fields. -/

/-- A local wall-clock reading at second granularity, as produced by
`datetime.datetime.now()` for formatting purposes. -/
structure DateTime where
  year : Nat
  month : Nat
  day : Nat
  hour : Nat
  minute : Nat
  second : Nat
  deriving DecidableEq, Repr

/-- The ASCII digit character for `n` (meaningful for `n < 10`). -/
def digitChar (n : Nat) : Char := Char.ofNat (48 + n)

/-- Two-digit zero-padded decimal rendering (strftime `%m`, `%d`, `%H`, `%M`, `%S`). -/
def pad2 (n : Nat) : List Char := [digitChar (n / 10), digitChar (n % 10)]

/-- Four-digit zero-padded decimal rendering (strftime `%Y` for years 1000-9999). -/
def pad4 (n : Nat) : List Char :=
  [digitChar (n / 1000), digitChar (n / 100 % 10), digitChar (n / 10 % 10),
   digitChar (n % 10)]

/-- `now.strftime("%Y%m%d-%H%M%S")` (source line 117). -/
def strftimeTimestamp (t : DateTime) : String :=
  String.mk (pad4 t.year ++ pad2 t.month ++ pad2 t.day ++ [Char.ofNat 45] ++
    pad2 t.hour ++ pad2 t.minute ++ pad2 t.second)

/-- `_generate_log_filename(command)` (source lines 107-118): the string
`f"{command}-{timestamp}.log"`. -/
def generate_log_filename (command : String) (now : DateTime) : String :=
  command ++ "-" ++ strftimeTimestamp now ++ ".log"

/-- `now.isoformat()`-style rendering used in the header and footer text. -/
def isoformat (t : DateTime) : String :=
  String.mk (pad4 t.year ++ [Char.ofNat 45] ++ pad2 t.month ++ [Char.ofNat 45] ++
    pad2 t.day ++ [Char.ofNat 84] ++ pad2 t.hour ++ [Char.ofNat 58] ++
    pad2 t.minute ++ [Char.ofNat 58] ++ pad2 t.second)

example : strftimeTimestamp ⟨2025, 10, 15, 14, 30, 22⟩ = "20251015-143022" := rfl

example : generate_log_filename "configure" ⟨2025, 10, 15, 14, 30, 22⟩ =
    "configure-20251015-143022.log" := rfl

/-! ## Audit Log Session (`logging_context`, lines 224-315)

Process-wide mutable state touched by the session: `sys.stdout`, `sys.stderr`
and the streams of the root logger's handlers.  Stream objects are modelled
by numeric identities; the freshly built tee streams get identities supplied
by the environment. -/

/-- One entry of `logging.root.handlers`; only `StreamHandler` instances have
a redirectable `stream` attribute. -/
structure Handler where
  isStreamHandler : Bool
  stream : Nat
  deriving DecidableEq, Repr

/-- The process-wide state the session mutates: `sys.stdout`, `sys.stderr`
(stream object identities) and the root logger's handler list. -/
structure ProcState where
  stdout : Nat
  stderr : Nat
  handlers : List Handler
  deriving DecidableEq, Repr

/-- The redirection loop of `logging_context` (source lines 284-289): every
`StreamHandler` has its `stream` set to the tee'd stderr, and its original
stream is recorded, in handler order.  Returns the updated handler list and
the recorded original streams.  (The source records `(handler, stream)`
object pairs; since each handler object occupies a fixed position of the
list, position stands for object identity here.) -/
def redirectHandlers (tee : Nat) : List Handler → List Handler × List Nat
  | [] => ([], [])
  | h :: t =>
      let (t', rec) := redirectHandlers tee t
      if h.isStreamHandler then
        ({ h with stream := tee } :: t', h.stream :: rec)
      else
        (h :: t', rec)

/-- The restoration loop of the `finally` block (source lines 296-300): each
recorded original stream is written back to the handler it came from.  (The
per-assignment `try`/`except pass` of the source cannot fire in this model,
as attribute assignment does not raise.) -/
def restoreHandlers : List Handler → List Nat → List Handler
  | [], _ => []
  | h :: t, recs =>
      if h.isStreamHandler then
        match recs with
        | s :: rest => { h with stream := s } :: restoreHandlers t rest
        | [] => h :: restoreHandlers t []
      else
        h :: restoreHandlers t recs

/-- Environment data a session run reads from the outside world. -/
structure SessionEnv where
  /-- `datetime.datetime.now()` at entry (filename and header). -/
  now : DateTime
  /-- `datetime.datetime.now()` when the footer is composed. -/
  endTime : DateTime
  /-- Whether the `adm` group exists (`grp.getgrnam`). -/
  admGroupExists : Bool
  /-- `os.open` fails with `PermissionError`/`OSError` (models any failure of
  the exclusive-create open other than `FileExistsError`). -/
  permDenied : Bool
  /-- Object identity of the tee stream installed over `sys.stdout`. -/
  teeOutId : Nat
  /-- Object identity of the tee stream installed over `sys.stderr`. -/
  teeErrId : Nat
  /-- The footer-write/close/print step of the `finally` block completes
  without raising (source lines 308-314 swallow its exceptions). -/
  cleanupOk : Bool
  deriving Repr

/-- Header/footer/user metadata of the log (source lines 121-161);
condensed: only the parts a claim mentions are rendered in full. -/
structure LogMeta where
  user : String
  uid : Nat
  hostname : String
  pythonVersion : String
  platformStr : String
  deriving Repr

/-- The 80-character separator line of header and footer. -/
def sep80 : String := String.mk (List.replicate 80 (Char.ofNat 61))

/-- `_write_log_header` content (source lines 121-143), joined with newlines. -/
def headerText (meta : LogMeta) (command : String) (args : List String)
    (now : DateTime) : String :=
  String.intercalate "\n"
    [sep80,
     "NILRT SNAC " ++ pyUpper command ++ " LOG",
     sep80,
     "Timestamp: " ++ isoformat now,
     "Command: nilrt-snac " ++ String.intercalate " " args,
     "User: " ++ meta.user ++ " (UID: " ++ toString meta.uid ++ ")",
     "Hostname: " ++ meta.hostname,
     "Python: " ++ meta.pythonVersion,
     "Platform: " ++ meta.platformStr,
     sep80,
     ""]

/-- `_write_log_footer` content (source lines 146-161), joined with newlines. -/
def footerText (endTime : DateTime) (returnCode : Nat) : String :=
  String.intercalate "\n"
    ["",
     sep80,
     "Execution completed at: " ++ isoformat endTime,
     "Exit code: " ++ toString returnCode,
     sep80]

/-- The directory of `logging_context` log files. -/
def LOG_DIR : String := "/var/log/nilrt-snac/"

/-- What one run of `logging_context` produced. -/
structure SessionResult where
  /-- Process state after the `with` block has completed (or re-raised). -/
  final : ProcState
  /-- What propagates to the caller: `Except.ok ()` on a normal return,
  otherwise the body's or the entry's exception. -/
  outcome : Except PyExc Unit
  /-- The filesystem (path ↦ content) after the run. -/
  fs : List (String × String)
  /-- The `print` output reaching the console after stream restoration
  (the `Log saved to:` announcement). -/
  consoleOut : List String
  /-- `logger.warning` calls made inside the session. -/
  warnings : List String
  /-- The `return_code` argument passed to `_write_log_footer`, when that
  call was made. -/
  footerCode : Option Nat
  deriving Repr

/-- `logging_context(command, args)` (source lines 224-315) driven over a
body with outcome `body` (the code of the `with` block, which either returns
normally or raises).  `fs` is the log filesystem as an association list from
path to content; `st` is the process state at entry.

Flow of the source: create the log directory (touches only the directory,
not `st` or the log files); compute the timestamped path; `os.open` it with
`O_WRONLY|O_CREAT|O_EXCL`; `fchown` to group `adm` best-effort; write the
header; replace `sys.stdout`/`sys.stderr` with tee streams; redirect the
stream handlers; run the body; then in `finally`: restore the handlers,
restore `sys.stdout`/`sys.stderr`, and — if the file was opened — write the
footer with return code 0, close, and announce the log path (that last step
swallowing its own exceptions). -/
def logging_context (meta : LogMeta) (command : String) (args : List String)
    (env : SessionEnv) (fs : List (String × String)) (body : Except PyExc Unit)
    (st : ProcState) : SessionResult :=
  let log_path := LOG_DIR ++ generate_log_filename command env.now
  if (fs.map Prod.fst).contains log_path then
    -- os.open raises FileExistsError: log_file is None, nothing was
    -- redirected, the finally block restores the (unchanged) streams and
    -- skips the footer; the exception propagates.
    { final := { st with stdout := st.stdout, stderr := st.stderr },
      outcome := Except.error PyExc.fileExists,
      fs := fs, consoleOut := [], warnings := [], footerCode := none }
  else if env.permDenied then
    -- os.open raises an OSError (e.g. EACCES); same cleanup as above.
    { final := { st with stdout := st.stdout, stderr := st.stderr },
      outcome := Except.error (PyExc.oserror "Permission denied"),
      fs := fs, consoleOut := [], warnings := [], footerCode := none }
  else
    -- fchown to group adm, best-effort (source lines 268-272)
    let warns := if env.admGroupExists then []
      else ["Group 'adm' not found. Log file will use default group."]
    -- header written and flushed (source line 275)
    let header := headerText meta command args env.now
    -- tee streams installed over stdout/stderr (source lines 279-280)
    -- handler redirection (source lines 284-289)
    let redirected := redirectHandlers env.teeErrId st.handlers
    -- body runs here; its writes flow through the tee (not tracked by this
    -- state; the tee itself is modelled separately above)
    -- finally: restore handlers, then stdout/stderr (source lines 296-304)
    let finalHandlers := restoreHandlers redirected.1 redirected.2
    let finalSt : ProcState :=
      { stdout := st.stdout, stderr := st.stderr, handlers := finalHandlers }
    -- footer + close + announcement, swallowing errors (source lines 307-314)
    let content := if env.cleanupOk then header ++ footerText env.endTime 0
      else header
    { final := finalSt,
      outcome := body,
      fs := fs ++ [(log_path, content)],
      consoleOut := if env.cleanupOk then ["\nLog saved to: " ++ log_path] else [],
      warnings := warns,
      footerCode := some 0 }

/-! ## Subprocess Relay (`run_with_logging`, lines 164-221) -/

/-- `subprocess.CompletedProcess` as returned by the relay. -/
structure CompletedProcess where
  args : List String
  returncode : Int
  stdout : String
  deriving DecidableEq, Repr

/-- Observable behaviour of the external process: the combined
stdout/stderr lines it produces (newline-terminated, as iterating a text
pipe yields them) and its exit code. -/
structure ProcBehavior where
  lines : List String
  returncode : Int
  deriving Repr

/-- `run_with_logging(*args, **kwargs)` (source lines 164-221).
`checkKwarg` is the `check` entry of `**kwargs`; `kwargs.pop("check", True)`
gives `True` when absent.  Each produced line is echoed to `sys.stdout` as
it arrives (a tee concern modelled separately) and accumulated; after the
process exits, a non-zero code with `check` set raises
`CalledProcessError(returncode, args)`, otherwise a `CompletedProcess` with
the original args, the exit code and the joined output is returned. -/
def run_with_logging (args : List String) (checkKwarg : Option Bool)
    (beh : ProcBehavior) : Except PyExc CompletedProcess :=
  let check := checkKwarg.getD true
  let output_lines := beh.lines
  let returncode := beh.returncode
  if check && returncode != 0 then
    Except.error (PyExc.calledProcessError args returncode)
  else
    Except.ok
      { args := args, returncode := returncode,
        stdout := if output_lines.isEmpty then "" else String.join output_lines }

example :
    run_with_logging ["ls", "-la"] (some false) ⟨["a\n", "b\n"], 2⟩ =
      Except.ok ⟨["ls", "-la"], 2, "a\nb\n"⟩ := rfl

example :
    run_with_logging ["opkg", "install", "p"] none ⟨[], 1⟩ =
      Except.error (PyExc.calledProcessError ["opkg", "install", "p"] 1) := rfl

/-! ## Effects of the configuration modules

Each `configure`/`verify` body is embedded as a computation in a
writer-plus-exception monad: it accumulates the trace of external effects it
performs, in program order, and can raise a `PyExc`. -/

/-- An externally visible action of a configuration module. -/
inductive Effect where
  /-- `print(s)`. -/
  | print (s : String)
  /-- `logger.error(s)`. -/
  | logError (s : String)
  /-- `logger.warning(s)`. -/
  | logWarning (s : String)
  /-- `logger.info(s)`. -/
  | logInfo (s : String)
  /-- `logger.debug(s)`. -/
  | logDebug (s : String)
  /-- A state-changing `subprocess.run`/`subprocess.Popen` invocation. -/
  | runCmd (cmd : List String)
  /-- A read-only command probe: `subprocess.getoutput` and similar
  query-only invocations (e.g. the `nslookup` reachability test). -/
  | queryCmd (cmd : String)
  /-- Actual package installation performed by the opkg helper. -/
  | opkgInstall (pkg : String)
  /-- Actual package removal performed by the opkg helper. -/
  | opkgRemove (pkg : String)
  /-- `opkg update` performed by the helper. -/
  | opkgUpdate
  /-- Read-only `opkg_helper.is_installed` query. -/
  | opkgQuery (pkg : String)
  /-- `open(path, "w")` plus writing content (content elided). -/
  | fileWrite (path : String)
  /-- `shutil.copy2 src dst`. -/
  | fileCopy (src : String) (dst : String)
  /-- `os.unlink path`. -/
  | fileUnlink (path : String)
  /-- Reading a file (`open(path)` for read, `_ConfigFile` loading). -/
  | fileRead (path : String)
  /-- `os.makedirs(path, exist_ok=True)`. -/
  | makedirs (path : String)
  /-- `os.chmod`. -/
  | chmod (path : String)
  /-- `os.chown`. -/
  | chown (path : String)
  /-- `input(...)` prompting the operator. -/
  | inputPrompt
  deriving DecidableEq, Repr

/-- Whether an effect mutates external state.  Prints, structured-log calls,
read-only queries, file reads and operator prompts do not; command
executions, package operations and file/permission writes do. -/
def Effect.isMutation : Effect → Bool
  | Effect.runCmd _ => true
  | Effect.opkgInstall _ => true
  | Effect.opkgRemove _ => true
  | Effect.opkgUpdate => true
  | Effect.fileWrite _ => true
  | Effect.fileCopy _ _ => true
  | Effect.fileUnlink _ => true
  | Effect.makedirs _ => true
  | Effect.chmod _ => true
  | Effect.chown _ => true
  | _ => false

/-- Writer-plus-exception monad for module bodies: the effect trace emitted
so far (in order, including effects before a raise) and the outcome. -/
def M (α : Type) : Type := List Effect × Except PyExc α

instance : Monad M where
  pure a := ([], Except.ok a)
  bind x f :=
    match x with
    | (evs, Except.ok a) =>
        let (evs2, r) := f a
        (evs ++ evs2, r)
    | (evs, Except.error e) => (evs, Except.error e)

/-- Emit one effect. -/
def emit (e : Effect) : M Unit := ([e], Except.ok ())

/-- Raise a Python exception. -/
def raiseExc {α : Type} (e : PyExc) : M α := ([], Except.error e)

/-- `try x except`: when `x` raises `e` and `handler e` is `some h`, the
trace of `x` is kept and `h` runs; otherwise the exception propagates. -/
def tryCatch {α : Type} (x : M α) (handler : PyExc → Option (M α)) : M α :=
  match x with
  | (evs, Except.error e) =>
      match handler e with
      | some h => (evs ++ h.1, h.2)
      | none => (evs, Except.error e)
  | ok => ok

/-- The effect trace of a computation (including effects before a raise). -/
def trace {α : Type} (x : M α) : List Effect := x.1

/-- The outcome of a computation. -/
def outcome {α : Type} (x : M α) : Except PyExc α := x.2

/-- The mutating effects of a computation. -/
def mutations {α : Type} (x : M α) : List Effect :=
  (trace x).filter Effect.isMutation

/-! ## Package-manager helper -/

/-- Modelled from the spec: the package-manager helper (`nilrt_snac/opkg.py`,
`opkg_helper`) is code of this repository that is not under `src/`; only its
callers are.  Per spec §6 it exposes `is_installed(name)`,
`install(name_or_path)`, `remove(name, **opts)`, `update()`, callable
synchronously and raising on hard failure; per §4.4/§8 dry-run semantics
("the module performs no mutating action and instead prints what it would
have done; side-effecting calls are short-circuited before any
state-changing command runs") its mutating methods honor the process-wide
dry-run flag, printing the intended action instead of performing it.
`installed` is the oracle answering `is_installed`; the `Fails` oracles say
which real operations raise a hard failure. -/
structure OpkgHelper where
  dryRun : Bool
  installed : String → Bool
  installFails : String → Bool
  removeFails : String → Bool
  updateFails : Bool

/-- `opkg_helper.is_installed(pkg)`: read-only query. -/
def OpkgHelper.is_installed (o : OpkgHelper) (pkg : String) : M Bool :=
  ([Effect.opkgQuery pkg], Except.ok (o.installed pkg))

/-- `opkg_helper.install(pkg)` (spec-modelled dry-run short-circuit). -/
def OpkgHelper.install (o : OpkgHelper) (pkg : String) : M Unit :=
  if o.dryRun then
    emit (Effect.print ("Dry run: would have run opkg install " ++ pkg))
  else do
    emit (Effect.opkgInstall pkg)
    if o.installFails pkg then
      raiseExc (PyExc.calledProcessError ["opkg", "install", pkg] 1)
    else
      pure ()

/-- `opkg_helper.remove(pkg, **opts)` (spec-modelled dry-run short-circuit;
the force options do not change the effect classification). -/
def OpkgHelper.remove (o : OpkgHelper) (pkg : String) : M Unit :=
  if o.dryRun then
    emit (Effect.print ("Dry run: would have run opkg remove " ++ pkg))
  else do
    emit (Effect.opkgRemove pkg)
    if o.removeFails pkg then
      raiseExc (PyExc.calledProcessError ["opkg", "remove", pkg] 1)
    else
      pure ()

/-- `opkg_helper.update()` (spec-modelled dry-run short-circuit). -/
def OpkgHelper.update (o : OpkgHelper) : M Unit :=
  if o.dryRun then
    emit (Effect.print "Dry run: would have run opkg update")
  else do
    emit (Effect.opkgUpdate)
    if o.updateFails then
      raiseExc (PyExc.calledProcessError ["opkg", "update"] 1)
    else
      pure ()

/-! ## Shared subprocess helpers of the config modules -/

/-- `subprocess.run(cmd, check=True)` for a state-changing command: `fnf`
says the executable is missing (`FileNotFoundError` before anything runs),
`exitOf` gives the exit code; a non-zero code raises `CalledProcessError`. -/
def runChecked (exitOf : List String → Int) (fnf : List String → Bool)
    (cmd : List String) : M Unit :=
  if fnf cmd then
    raiseExc PyExc.fileNotFoundError
  else do
    emit (Effect.runCmd cmd)
    let code := exitOf cmd
    if code != 0 then raiseExc (PyExc.calledProcessError cmd code) else pure ()

/-- `subprocess.run(cmd, check=True, stdout=PIPE)` for a read-only query
command: returns the captured stdout, raising on a non-zero exit. -/
def runQueryChecked (cmd : List String) (exitCode : Int) (out : String) :
    M String := do
  emit (Effect.queryCmd (String.intercalate " " cmd))
  if exitCode != 0 then raiseExc (PyExc.calledProcessError cmd exitCode)
  else pure out

/-- `subprocess.getoutput(cmd)`: read-only, never raises. -/
def getoutputM (oracle : String → String) (cmd : String) : M String :=
  ([Effect.queryCmd cmd], Except.ok (oracle cmd))

/-- Python `needle in hay` substring test (`needle` non-empty here). -/
def containsSubstr (hay needle : String) : Bool :=
  (pySplit hay needle).length ≥ 2

/-- Python `int(s)`: strip whitespace, optional sign, decimal digits.
(Underscore separators and non-ASCII digits, which `int()` also accepts, do
not occur in the probed command outputs and are not modelled.) -/
def pyInt (s : String) : Option Int :=
  let t := pyStrip s
  let chars := t.toList
  let signed : Int × List Char :=
    match chars with
    | c :: rest =>
        if c = Char.ofNat 45 then (-1, rest)
        else if c = Char.ofNat 43 then (1, rest)
        else (1, chars)
    | [] => (1, [])
  let ds := signed.2
  if ds.isEmpty || !ds.all Char.isDigit then none
  else
    some (signed.1 * Int.ofNat (ds.foldl (fun acc c => acc * 10 + (c.toNat - 48)) 0))

example : pyInt " 423 " = some 423 := by decide
example : pyInt "" = none := by decide
example : pyInt "-17" = some (-17) := by decide
example : pyInt "12a" = none := by decide

/-! ## Console module (`_console_config.py`) -/

/-- Environment of `_ConsoleConfig`: exit code of the `nirtcfg --set` call,
and exit code plus captured stdout of the `nirtcfg --get` call. -/
structure ConsoleEnv where
  nirtcfgSetExit : Int
  nirtcfgGetExit : Int
  nirtcfgGetOut : String
  deriving Repr

/-- `_ConsoleConfig.configure(args)` (source lines 14-24). -/
def ConsoleConfig.configure (opkg : OpkgHelper) (dry_run : Bool)
    (env : ConsoleEnv) : M Unit := do
  emit (Effect.print "Deconfiguring console access...")
  if !dry_run then
    runChecked (fun _ => env.nirtcfgSetExit) (fun _ => false)
      ["nirtcfg", "--set", "section=systemsettings,token=consoleout.enabled,value=False"]
  else
    emit (Effect.print "Dry run: would have run nirtcfg --set section=systemsettings,token=consoleout.enabled,value=False")
  OpkgHelper.remove opkg "sysconfig-settings-console"

/-- `_ConsoleConfig.verify(args)` (source lines 26-43). -/
def ConsoleConfig.verify (opkg : OpkgHelper) (dry_run : Bool)
    (env : ConsoleEnv) : M Bool := do
  emit (Effect.print "Verifying console access configuration...")
  let valid := true
  let valid1 ←
    if !dry_run then do
      let out ← runQueryChecked
        ["nirtcfg", "--get", "section=systemsettings,token=consoleout.enabled"]
        env.nirtcfgGetExit env.nirtcfgGetOut
      if pyStrip out != "False" then do
        emit (Effect.logError "FOUND: console access not diabled")
        pure false
      else
        pure valid
    else do
      emit (Effect.print "Dry run: would have run nirtcfg --get section=systemsettings,token=consoleout.enabled")
      pure valid
  let inst ← OpkgHelper.is_installed opkg "sysconfig-settings-console"
  if inst then do
    emit (Effect.logError "FOUND: sysconfig-settings-console still installed.")
    pure false
  else
    pure valid1

/-! ## Syslog module (`_syslog_ng_config.py`) -/

/-- Environment of `_SyslogConfig`: exit codes of its commands and the
captured output of the `grep` query. -/
structure SyslogEnv where
  nirtcfgExit : Int
  loggerExit : Int
  grepExit : Int
  grepOut : String
  deriving Repr

/-- `_SyslogConfig.configure(args)` (source lines 18-30). -/
def SyslogConfig.configure (opkg : OpkgHelper) (dry_run : Bool)
    (env : SyslogEnv) : M Unit := do
  emit (Effect.print "Configuring syslog-ng...")
  if dry_run then
    pure ()
  else do
    let inst ← OpkgHelper.is_installed opkg "syslog-ng"
    if !inst then OpkgHelper.install opkg "syslog-ng" else pure ()
    runChecked (fun _ => env.nirtcfgExit) (fun _ => false)
      ["nirtcfg", "--set", "section=SystemSettings,token=PersistentLogs.enabled,value=\"True\""]

/-- `_SyslogConfig.verify(args)` (source lines 33-59).  The `logger` probe
and the `grep` search are run with `check=True`, so a non-zero exit of
either (for `grep`, the normal outcome when the message is absent) raises
`CalledProcessError`.  The `grep` invocation uses `shell=True` with a
command string; it is represented here by its tokens. -/
def SyslogConfig.verify (env : SyslogEnv) : M Bool := do
  emit (Effect.print "Verifying syslog-ng configuration...")
  let test_message := "Test log entry for verification"
  runChecked (fun _ => env.loggerExit) (fun _ => false) ["logger", test_message]
  let valid := true
  -- `if valid:` — always taken at this point
  let out ← runQueryChecked
    ["grep", "\"" ++ test_message ++ "\"", "/var/log/messages"]
    env.grepExit env.grepOut
  let last_entry := (pySplit (pyStrip out) "\n").getLastD ""
  if !containsSubstr last_entry test_message then do
    emit (Effect.logError "ERROR: Test log entry not found.")
    pure false
  else
    pure valid

/-! ## NIAuth module (`_niauth_config.py`) -/

/-- `SNAC_DATA_DIR` resolves relative to the installed package
(`Path(__file__).resolve().parents[3] / "share" / "nilrt-snac"`); the
anchor is irrelevant here, only the tail of the path matters. -/
def SNAC_DATA_DIR : String := "share/nilrt-snac"

/-- Environment of `_NIAuthConfig`: exit code of `passwd -d root`. -/
structure NIAuthEnv where
  passwdExit : Int
  deriving Repr

/-- `_NIAuthConfig.configure(args)` (source lines 15-27). -/
def NIAuthConfig.configure (opkg : OpkgHelper) (dry_run : Bool)
    (env : NIAuthEnv) : M Unit := do
  emit (Effect.print "Removing NIAuth...")
  OpkgHelper.remove opkg "ni-auth"
  OpkgHelper.remove opkg "niacctbase-sudo"
  let inst ← OpkgHelper.is_installed opkg "nilrt-snac-conflicts"
  if !inst then
    OpkgHelper.install opkg (SNAC_DATA_DIR ++ "/nilrt-snac-conflicts.ipk")
  else
    pure ()
  emit (Effect.logDebug "Removing root password")
  if !dry_run then
    runChecked (fun _ => env.passwdExit) (fun _ => false) ["passwd", "-d", "root"]
  else
    emit (Effect.print "Dry run: would have run passwd -d root")

/-- `_NIAuthConfig.verify(args)` (source lines 29-41). -/
def NIAuthConfig.verify (opkg : OpkgHelper) : M Bool := do
  emit (Effect.print "Verifying NIAuth...")
  let valid := true
  let b1 ← OpkgHelper.is_installed opkg "ni-auth"
  let valid1 ←
    if b1 then do
      emit (Effect.logError "FOUND: ni-auth installed")
      pure false
    else pure valid
  let b2 ← OpkgHelper.is_installed opkg "niacctbase-sudo"
  let valid2 ←
    if b2 then do
      emit (Effect.logError "FOUND: niacctbase-sudo installed")
      pure false
    else pure valid1
  let b3 ← OpkgHelper.is_installed opkg "nilrt-snac-conflicts"
  if !b3 then do
    emit (Effect.logError "MISSING: nilrt-snac-conflicts not installed")
    pure false
  else pure valid2

/-! ## Auditd module (`_auditd_config.py`) -/

/-- Character class `[a-zA-Z0-9._%+-]` of the local part of the module's
email pattern. -/
def isEmailLocalChar (c : Char) : Bool :=
  c.isAlpha || c.isDigit || c = Char.ofNat 46 || c = Char.ofNat 95 ||
    c = Char.ofNat 37 || c = Char.ofNat 43 || c = Char.ofNat 45

/-- Character class `[a-zA-Z0-9.-]` of the domain part. -/
def isEmailDomainChar (c : Char) : Bool :=
  c.isAlpha || c.isDigit || c = Char.ofNat 46 || c = Char.ofNat 45

/-- `is_valid_email(email)` (source `_auditd_config.py` lines 13-16):
`re.match` of `[a-zA-Z0-9._%+-]+@[a-zA-Z0-9.-]+\.[a-zA-Z]{2,}$` anchored at
both ends.  Since neither character class contains `@`, a match splits the
string at its unique `@`; and since the final `[a-zA-Z]{2,}` admits no dot,
the `\.` of the pattern must be the last dot of the domain.  The pattern is
therefore equivalent to: a non-empty local part over its class, one `@`, a
domain over its class with a non-empty part before its last dot, and at
least two ASCII letters after it. -/
def is_valid_email (email : String) : Bool :=
  match pySplit email "@" with
  | [lp, dom] =>
      !lp.isEmpty && lp.toList.all isEmailLocalChar &&
      dom.toList.all isEmailDomainChar &&
      (let parts := pySplit dom "."
       let tld := parts.getLastD ""
       decide (parts.length ≥ 2) &&
       !(String.intercalate "." parts.dropLast).isEmpty &&
       decide (tld.length ≥ 2) && tld.toList.all Char.isAlpha)
  | _ => false

example : is_valid_email "audit@example.com" = true := rfl
example : is_valid_email "a@b.c" = false := rfl
example : is_valid_email "audit@.com" = false := rfl
example : is_valid_email "not-an-email" = false := rfl
example : is_valid_email "a@b@c.com" = false := rfl

/-- The `while not is_valid_email(audit_email)` loop (source lines 60-62):
each pass prompts the operator with `input(...)`.  `inputs` is the modelled
supply of operator answers; the source keeps prompting without bound, so an
exhausted supply with still no valid address is marked by a model-level
error (no claim depends on that path). -/
def promptEmail : String → List String → M String
  | email, inputs =>
    if is_valid_email email then pure email
    else
      match inputs with
      | [] => do
          emit Effect.inputPrompt
          raiseExc (PyExc.oserror "model: operator input exhausted")
      | i :: rest => do
          emit Effect.inputPrompt
          promptEmail i rest

/-- Environment of `_AuditdConfig`. -/
structure AuditdEnv where
  /-- `args.audit_email` (argparse supplies `None` when absent). -/
  argsEmail : Option String
  /-- `auditd_config_file.get("action_mail_acct")`. -/
  configEmail : String
  /-- Successive operator answers to `input(...)`. -/
  emailInputs : List String
  /-- Exit codes of the `_cmd` subprocess invocations. -/
  cmdExit : List String → Int
  /-- Output of `systemctl is-active auditd` during `verify`. -/
  isActiveOut : String

/-- `_cmd(*args)` of `_auditd_config.py` / `_syslog_ng_config.py`:
`subprocess.run(args, check=True)`. -/
def auditd_cmd (env : AuditdEnv) (cmd : List String) : M Unit :=
  runChecked env.cmdExit (fun _ => false) cmd

/-- `_AuditdConfig.configure(args)` (source lines 38-87). -/
def AuditdConfig.configure (opkg : OpkgHelper) (dry_run : Bool)
    (env : AuditdEnv) : M Unit := do
  emit (Effect.print "Configuring auditd...")
  -- auditd_config_file = _ConfigFile("/etc/audit/auditd.conf")
  emit (Effect.fileRead "/etc/audit/auditd.conf")
  let log_path := "/var/log"
  if dry_run then
    pure ()
  else do
    let inst ← OpkgHelper.is_installed opkg "auditd"
    if !inst then OpkgHelper.install opkg "auditd" else pure ()
    auditd_cmd env ["update-rc.d", "auditd", "defaults"]
    auditd_cmd env ["service", "auditd", "start"]
    -- audit_email = args.audit_email; if not audit_email: (config value)
    let fromArgs := env.argsEmail.getD ""
    let audit_email0 := if fromArgs.isEmpty then env.configEmail else fromArgs
    let audit_email ← promptEmail audit_email0 env.emailInputs
    auditd_cmd env ["sed", "-i",
      "/^action_mail_acct/ c\\action_mail_acct = " ++ audit_email,
      "/etc/audit/auditd.conf"]
    auditd_cmd env ["sudo", "chown", "-R", "root:adm", log_path]
    emit (Effect.print "Changed group ownership to \x27adm\x27.")
    auditd_cmd env ["sudo", "chmod", "-R", "770", log_path]
    emit (Effect.print "Set permissions to 770.")
    auditd_cmd env ["sudo", "setfacl", "-d", "-m", "g:adm:rwx", log_path]
    auditd_cmd env ["sudo", "setfacl", "-d", "-m", "o::0", log_path]
    emit (Effect.print "Set default ACLs for new files and directories.")
    auditd_cmd env ["sudo", "chown", "root:sudo", "/etc/audit/auditd.conf"]
    emit (Effect.print "Changed group ownership to \x27sudo\x27.")
    auditd_cmd env ["sudo", "chmod", "660", "/etc/audit/auditd.conf"]
    emit (Effect.print "Set permissions to 660.")

/-- `_check_service_status(service)` (source lines 18-24). -/
def check_service_status (outputOf : String → String) (service : String) :
    M Bool := do
  let status ← getoutputM outputOf ("systemctl is-active " ++ service)
  if status = "active" then
    pure true
  else do
    emit (Effect.logError ("ERROR: " ++ service ++ " is not active."))
    pure false

/-- `_AuditdConfig.verify(args)` (source lines 92-99). -/
def AuditdConfig.verify (env : AuditdEnv) : M Bool := do
  emit (Effect.print "Verifying auditd configuration...")
  let valid := true
  -- valid = valid and _check_service_status("auditd")
  let b ← check_service_status (fun _ => env.isActiveOut) "auditd"
  pure (valid && b)

/-! ## Firewall module (`_firewall_config.py`) -/

/-- Environment of `_FirewallConfig`: the `subprocess.getoutput` oracle and
the exit code / missing-binary oracle for `subprocess.run` invocations. -/
structure FirewallEnv where
  go : String → String
  cmdExit : List String → Int
  cmdFNF : List String → Bool

/-- `_cmd(dry_run, *args)`: `firewall-cmd -q` (source lines 9-14). -/
def fw_cmd (env : FirewallEnv) (dry_run : Bool) (args : List String) : M Unit :=
  if !dry_run then
    runChecked env.cmdExit env.cmdFNF (["firewall-cmd", "-q"] ++ args)
  else
    emit (Effect.print ("Dry run: would have run firewall-cmd -q " ++
      String.intercalate " " args))

/-- `_offlinecmd(dry_run, *args)`: `firewall-offline-cmd -q` (lines 16-21). -/
def fw_offlinecmd (env : FirewallEnv) (dry_run : Bool) (args : List String) :
    M Unit :=
  if !dry_run then
    runChecked env.cmdExit env.cmdFNF (["firewall-offline-cmd", "-q"] ++ args)
  else
    emit (Effect.print ("Dry run: would have run firewall-offline-cmd -q " ++
      String.intercalate " " args))

/-- `_check_target(dry_run, policy, expected="REJECT")` (lines 23-35). -/
def check_target (env : FirewallEnv) (dry_run : Bool)
    (policy : String) (expected : String := "REJECT") : M Bool :=
  if !dry_run then do
    let actual ← getoutputM env.go
      ("firewall-cmd --permanent --policy=" ++ policy ++ " --get-target")
    if expected = actual then
      pure true
    else do
      emit (Effect.logError ("ERROR: policy " ++ policy ++ " target: expected " ++
        expected ++ ", observed " ++ actual))
      pure false
  else do
    emit (Effect.print ("Dry run: would have run firewall-cmd --policy=" ++
      policy ++ " --get-target"))
    pure true

/-- `_check_service(dry_run, Q, service, expected="yes")` (lines 37-52). -/
def check_service (env : FirewallEnv) (dry_run : Bool)
    (q service : String) (expected : String := "yes") : M Bool :=
  if !dry_run then do
    let actual ← getoutputM env.go
      ("firewall-cmd --permanent " ++ q ++ " --query-service=" ++ service)
    if expected = actual then
      pure true
    else do
      emit (Effect.logError ("ERROR: " ++ q ++ " service " ++ service ++
        ": expected " ++ expected ++ ", observed " ++ actual))
      pure false
  else do
    emit (Effect.print ("Dry run: would have run firewall-cmd " ++ q ++
      " --query-service=" ++ service))
    pure true

/-- `_check_service_info(dry_run, service, Q, expected)` (lines 54-68).
Defined for completeness: its one call site in `verify` supplies only three
of the four required positional arguments, so the body never runs. -/
def check_service_info (env : FirewallEnv) (dry_run : Bool)
    (service q expected : String) : M Bool :=
  if !dry_run then do
    let actual ← getoutputM env.go
      ("firewall-cmd --permanent --service=" ++ service ++ " " ++ q)
    if expected = actual then
      pure true
    else do
      emit (Effect.logError ("ERROR: service " ++ service ++ " " ++ q ++
        ": expected " ++ expected ++ ", observed " ++ actual))
      pure false
  else do
    emit (Effect.print ("Dry run: would have run firewall-cmd --service=" ++
      service ++ " " ++ q))
    pure true

/-- `_FirewallConfig.configure(args)` (source lines 74-153). -/
def FirewallConfig.configure (opkg : OpkgHelper) (dry_run : Bool)
    (env : FirewallEnv) : M Unit := do
  emit (Effect.print "Configuring firewall...")
  OpkgHelper.install opkg "firewalld"
  OpkgHelper.install opkg "firewalld-offline-cmd"
  OpkgHelper.install opkg "firewalld-log-rotate"
  OpkgHelper.install opkg "ni-firewalld-servicedefs"
  fw_offlinecmd env dry_run ["--reset-to-defaults"]
  fw_offlinecmd env dry_run ["--zone=work", "--add-interface=wglv0"]
  fw_offlinecmd env dry_run ["--zone=work", "--remove-forward"]
  fw_offlinecmd env dry_run ["--zone=public", "--remove-forward"]
  fw_offlinecmd env dry_run ["--new-policy=work-in"]
  fw_offlinecmd env dry_run ["--policy=work-in", "--add-ingress-zone=work"]
  fw_offlinecmd env dry_run ["--policy=work-in", "--add-egress-zone=HOST"]
  fw_offlinecmd env dry_run ["--policy=work-in", "--add-protocol=icmp"]
  fw_offlinecmd env dry_run ["--policy=work-in", "--add-protocol=ipv6-icmp"]
  fw_offlinecmd env dry_run ["--policy=work-in", "--add-service=ssh",
    "--add-service=mdns"]
  fw_offlinecmd env dry_run ["--new-policy=work-out"]
  fw_offlinecmd env dry_run ["--policy=work-out", "--add-ingress-zone=HOST"]
  fw_offlinecmd env dry_run ["--policy=work-out", "--add-egress-zone=work"]
  fw_offlinecmd env dry_run ["--policy=work-out", "--add-protocol=icmp"]
  fw_offlinecmd env dry_run ["--policy=work-out", "--add-protocol=ipv6-icmp"]
  fw_offlinecmd env dry_run ["--policy=work-out", "--add-service=ssh",
    "--add-service=http", "--add-service=https"]
  fw_offlinecmd env dry_run ["--policy=work-out", "--set-target=REJECT"]
  fw_offlinecmd env dry_run ["--new-policy=public-in"]
  fw_offlinecmd env dry_run ["--policy=public-in", "--add-ingress-zone=public"]
  fw_offlinecmd env dry_run ["--policy=public-in", "--add-egress-zone=HOST"]
  fw_offlinecmd env dry_run ["--policy=public-in", "--add-protocol=icmp"]
  fw_offlinecmd env dry_run ["--policy=public-in", "--add-protocol=ipv6-icmp"]
  fw_offlinecmd env dry_run ["--policy=public-in", "--add-service=ssh",
    "--add-service=wireguard"]
  fw_offlinecmd env dry_run ["--new-policy=public-out"]
  fw_offlinecmd env dry_run ["--policy=public-out", "--add-ingress-zone=HOST"]
  fw_offlinecmd env dry_run ["--policy=public-out", "--add-egress-zone=public"]
  fw_offlinecmd env dry_run ["--policy=public-out", "--add-protocol=icmp"]
  fw_offlinecmd env dry_run ["--policy=public-out", "--add-protocol=ipv6-icmp"]
  fw_offlinecmd env dry_run ["--policy=public-out", "--add-service=dhcp",
    "--add-service=dhcpv6", "--add-service=http", "--add-service=https",
    "--add-service=wireguard", "--add-service=dns", "--add-service=ntp"]
  fw_offlinecmd env dry_run ["--policy=public-out", "--set-target=REJECT"]
  fw_offlinecmd env dry_run ["--policy=work-in",
    "--add-service=ni-labview-realtime", "--add-service=ni-labview-viserver",
    "--add-service=ni-logos-xt", "--add-service=ni-mxs",
    "--add-service=ni-rpc-server", "--add-service=ni-service-locator"]
  fw_offlinecmd env dry_run ["--policy=work-in", "--add-port=55184/tcp"]
  fw_offlinecmd env dry_run ["--policy=work-out", "--add-service=amqp",
    "--add-service=salt-master"]
  fw_cmd env dry_run ["--reload"]

/-- `_FirewallConfig.verify(args)` (source lines 155-184). -/
def FirewallConfig.verify (dry_run : Bool) (env : FirewallEnv) : M Bool := do
  emit (Effect.print "Verifying firewall configuration...")
  -- valid: bool = True
  -- try: pid = int(subprocess.getoutput("pidof -x /usr/sbin/firewalld"))
  -- except ValueError: error + valid = False
  let pidofOut ← getoutputM env.go "pidof -x /usr/sbin/firewalld"
  let valid1 ←
    match pyInt pidofOut with
    | some _ => pure true
    | none => do
        emit (Effect.logError "MISSING: running firewalld")
        pure false
  -- try: _cmd(dry_run, "--check-config") except FileNotFoundError
  let _valid2 ← tryCatch
    (do fw_cmd env dry_run ["--check-config"]; pure valid1)
    (fun e =>
      match e with
      | PyExc.fileNotFoundError =>
          some (do emit (Effect.logError "MISSING: firewall-cmd"); pure false)
      | _ => none)
  -- valid = all([...]): note this assignment discards `_valid2`, so the two
  -- failures recorded above no longer influence the returned value
  let b1 ← check_target env dry_run "work-in" "CONTINUE"
  let b2 ← check_target env dry_run "work-out"
  let b3 ← check_target env dry_run "public-in" "CONTINUE"
  let b4 ← check_target env dry_run "public-out"
  let b5 ← check_service env dry_run "--policy=work-in" "ni-labview-realtime"
  let b6 ← check_service env dry_run "--policy=public-in" "ni-labview-realtime" "no"
  let b7 ← check_service env dry_run "--zone=public" "ni-labview-realtime" "no"
  -- the eighth list element is `_check_service_info("ni-labview-realtime",
  -- "--get-ports", "3079/tcp")`: three arguments for four required
  -- positional parameters, so evaluating the call raises TypeError before
  -- `_check_service_info` runs
  let b8 ← (raiseExc PyExc.typeError : M Bool)
  let valid := [b1, b2, b3, b4, b5, b6, b7, b8].all id
  pure valid

/-! ## ClamAV module (`_clamav_config.py`)

`_ClamAVConfig.configure` is the one `configure` whose body never consults
`args.dry_run`. -/

/-- The 60-character separator of the ClamAV installation banner. -/
def sep60 : String := String.mk (List.replicate 60 (Char.ofNat 61))

/-- Human-readable rendering of an exception, standing in for the `f"{e}"`
interpolations of the source (their exact text matters to no claim). -/
def pyExcStr : PyExc → String
  | PyExc.oserror m => m
  | PyExc.fileExists => "FileExistsError"
  | PyExc.valueError => "ValueError"
  | PyExc.typeError => "TypeError"
  | PyExc.calledProcessError cmd code =>
      "Command " ++ String.intercalate " " cmd ++ " returned non-zero exit status " ++
        toString code
  | PyExc.fileNotFoundError => "FileNotFoundError"

/-- Environment of `_ClamAVConfig`: filesystem probes and operation
outcomes its branches depend on. -/
structure ClamAVEnv where
  /-- `/etc/resolv.conf` exists when the backup step probes it. -/
  resolvExists : Bool
  /-- ... and is a regular file (not a symlink). -/
  resolvIsFile : Bool
  /-- ... and is a symlink. -/
  resolvIsLink : Bool
  /-- `/etc/resolv.conf.nilrt-backup` exists at backup time. -/
  backupExists : Bool
  /-- `/etc/resolv.conf` exists when the post-install fix step probes it. -/
  fixResolvExists : Bool
  /-- ... is a symlink at fix time. -/
  fixResolvIsLink : Bool
  /-- ... is a regular file at fix time. -/
  fixResolvIsFile : Bool
  /-- Its content at fix time. -/
  fixResolvContent : String
  /-- The backup file exists at fix time. -/
  fixBackupExists : Bool
  /-- The `nslookup` reachability probe raises (e.g. `TimeoutExpired`). -/
  nslookupRaises : Bool
  /-- Exit code of the `nslookup` probe otherwise. -/
  nslookupExit : Int
  /-- The `pwd`/`grp` lookups of the `clamav` user and group succeed; when
  false, the `KeyError` branch runs (an `OSError` from the ownership calls
  lands in the same handler and is not separately modelled). -/
  clamavUserExists : Bool
  /-- `/var/lib/clamav/freshclam.log` already exists. -/
  freshclamLogExists : Bool
  /-- The fallback `chmod 0o777` succeeds. -/
  fallbackChmodOk : Bool
  /-- Writing `/etc/clamav/freshclam.conf` succeeds. -/
  freshclamWriteOk : Bool
  /-- Writing `/etc/clamav/clamd.conf` succeeds. -/
  clamdWriteOk : Bool
  /-- Writing the wrapper script succeeds. -/
  wrapperWriteOk : Bool

/-- The ClamAV package set (`self.package_names`). -/
def ClamAVConfig.package_names : List String :=
  ["clamav", "clamav-daemon", "clamav-freshclam"]

/-- `_ClamAVConfig._backup_dns_configuration` (source).  Nothing inside the
`try` can raise in this model, so the except-warning branch is dead here. -/
def ClamAVConfig.backup_dns_configuration (env : ClamAVEnv) : M Unit :=
  if env.resolvExists && !env.backupExists then
    if env.resolvIsFile && !env.resolvIsLink then do
      emit (Effect.fileCopy "/etc/resolv.conf" "/etc/resolv.conf.nilrt-backup")
      emit (Effect.logInfo "Backed up existing /etc/resolv.conf")
    else if env.resolvIsLink && env.resolvExists then do
      emit (Effect.fileRead "/etc/resolv.conf")
      emit (Effect.fileWrite "/etc/resolv.conf.nilrt-backup")
      emit (Effect.logInfo "Backed up DNS configuration from symlink target")
    else
      pure ()
  else
    pure ()

/-- One iteration of the install loop of `_install_clamav_packages`: skip
installed packages, otherwise install inside a `try` whose handler logs a
warning and continues with the next package. -/
def ClamAVConfig.installOnePackage (opkg : OpkgHelper) (pkg : String) : M Unit := do
  let inst ← OpkgHelper.is_installed opkg pkg
  if !inst then
    tryCatch
      (do
        emit (Effect.print ("Installing " ++ pkg ++ "..."))
        OpkgHelper.install opkg pkg
        emit (Effect.logInfo ("Successfully installed " ++ pkg)))
      (fun e => some (emit (Effect.logWarning
        ("Failed to install " ++ pkg ++ ": " ++ pyExcStr e))))
  else
    pure ()

/-- `_ClamAVConfig._install_clamav_packages` (source): backup DNS, update
the package list, install each missing package; the outer handler logs an
error and re-raises. -/
def ClamAVConfig.install_clamav_packages (opkg : OpkgHelper) (env : ClamAVEnv) :
    M Unit :=
  tryCatch
    (do
      ClamAVConfig.backup_dns_configuration env
      emit (Effect.print "Updating package list...")
      OpkgHelper.update opkg
      ClamAVConfig.installOnePackage opkg "clamav"
      ClamAVConfig.installOnePackage opkg "clamav-daemon"
      ClamAVConfig.installOnePackage opkg "clamav-freshclam")
    (fun e => some (do
      emit (Effect.logError ("Failed to install ClamAV packages: " ++ pyExcStr e))
      raiseExc e))

/-- `_ClamAVConfig._fix_dns_configuration` (source).  The broken-symlink
`elif` is unreachable in the source as well: it requires
`os.path.exists` to be false right after the `if` branch established it
true; the model keeps the conditional structure.  The `nslookup` probe sits
in its own `try` whose handler logs; nothing reaches the outer handler in
this model. -/
def ClamAVConfig.fix_dns_configuration (env : ClamAVEnv) : M Unit := do
  let needs_fix ←
    if !env.fixResolvExists then do
      emit (Effect.logWarning "/etc/resolv.conf missing after ClamAV installation")
      pure true
    else if env.fixResolvIsLink && !env.fixResolvExists then do
      emit (Effect.logWarning
        "Found broken /etc/resolv.conf symlink after ClamAV installation")
      emit (Effect.fileUnlink "/etc/resolv.conf")
      pure true
    else if env.fixResolvIsFile then do
      emit (Effect.fileRead "/etc/resolv.conf")
      if (pyStrip env.fixResolvContent).isEmpty ||
          !containsSubstr env.fixResolvContent "nameserver" then do
        emit (Effect.logWarning "/etc/resolv.conf is empty or has no nameservers")
        pure true
      else
        pure false
    else
      pure false
  if needs_fix then do
    if env.fixBackupExists then do
      emit (Effect.logInfo "Restoring DNS configuration from backup")
      emit (Effect.fileCopy "/etc/resolv.conf.nilrt-backup" "/etc/resolv.conf")
    else do
      emit (Effect.logInfo "Creating new DNS configuration")
      emit (Effect.fileWrite "/etc/resolv.conf")
    emit (Effect.chmod "/etc/resolv.conf")
    emit (Effect.logInfo "Fixed /etc/resolv.conf DNS configuration")
    if env.nslookupRaises then
      emit (Effect.logInfo "DNS configuration created (resolution test unavailable)")
    else do
      emit (Effect.queryCmd "nslookup google.com")
      if env.nslookupExit = 0 then
        emit (Effect.logInfo "DNS resolution test passed")
      else
        emit (Effect.logWarning "DNS resolution test failed, but configuration created")
  else
    emit (Effect.logInfo "DNS configuration is working properly")

/-- `_ClamAVConfig._setup_freshclam_config` (source): write the fixed
configuration text, chmod it, log; on failure log an error and continue. -/
def ClamAVConfig.setup_freshclam_config (env : ClamAVEnv) : M Unit :=
  if env.freshclamWriteOk then do
    emit (Effect.fileWrite "/etc/clamav/freshclam.conf")
    emit (Effect.chmod "/etc/clamav/freshclam.conf")
    emit (Effect.logInfo "Created freshclam configuration: /etc/clamav/freshclam.conf")
  else
    emit (Effect.logError "Failed to create freshclam config: OSError")

/-- `_ClamAVConfig._setup_clamd_config` (source), same shape. -/
def ClamAVConfig.setup_clamd_config (env : ClamAVEnv) : M Unit :=
  if env.clamdWriteOk then do
    emit (Effect.fileWrite "/etc/clamav/clamd.conf")
    emit (Effect.chmod "/etc/clamav/clamd.conf")
    emit (Effect.logInfo "Created clamd configuration: /etc/clamav/clamd.conf")
  else
    emit (Effect.logError "Failed to create clamd config: OSError")

/-- `_ClamAVConfig._disable_automatic_services` (source): the service
disable/stop commands run with `check=False` and `capture_output=True`, so
they never raise; the nested `try`/`except pass` layers are inert here. -/
def ClamAVConfig.disable_automatic_services : M Unit := do
  emit (Effect.runCmd ["systemctl", "disable", "clamav-daemon"])
  emit (Effect.runCmd ["systemctl", "stop", "clamav-daemon"])
  emit (Effect.print "✓ ClamAV daemon service disabled")
  emit (Effect.runCmd ["systemctl", "disable", "clamav-freshclam"])
  emit (Effect.runCmd ["systemctl", "stop", "clamav-freshclam"])
  emit (Effect.print "✓ ClamAV freshclam service disabled")
  emit (Effect.runCmd ["update-rc.d", "clamav-daemon", "disable"])
  emit (Effect.runCmd ["update-rc.d", "clamav-freshclam", "disable"])
  emit (Effect.print "ClamAV configured for manual operation only.")
  emit (Effect.print "To start scanning manually, use: sudo clamav-scan")

/-- `_ClamAVConfig._configure_clamav_files` (source): ensure directories,
set ownership (with a world-writable fallback on `KeyError`/`OSError`),
create the freshclam log if missing, then write both configuration files
and disable the automatic services. -/
def ClamAVConfig.configure_clamav_files (env : ClamAVEnv) : M Unit := do
  emit (Effect.makedirs "/etc/clamav")
  emit (Effect.makedirs "/var/lib/clamav")
  if env.clamavUserExists then do
    emit (Effect.chown "/var/lib/clamav")
    emit (Effect.chmod "/var/lib/clamav")
    if !env.freshclamLogExists then do
      emit (Effect.fileWrite "/var/lib/clamav/freshclam.log")
      emit (Effect.chown "/var/lib/clamav/freshclam.log")
      emit (Effect.chmod "/var/lib/clamav/freshclam.log")
    else
      pure ()
  else do
    emit (Effect.logWarning "Could not set clamav ownership: KeyError")
    if env.fallbackChmodOk then do
      emit (Effect.chmod "/var/lib/clamav")
      emit (Effect.logInfo "Set /var/lib/clamav to world-writable as fallback")
    else
      pure ()
  ClamAVConfig.setup_freshclam_config env
  ClamAVConfig.setup_clamd_config env
  ClamAVConfig.disable_automatic_services

/-- `_ClamAVConfig._create_wrapper_script` (source): the `os.makedirs` call
sits before the `try`; the write/chmod pair is guarded by it. -/
def ClamAVConfig.create_wrapper_script (env : ClamAVEnv) : M Unit := do
  emit (Effect.makedirs "/usr/local/bin")
  if env.wrapperWriteOk then do
    emit (Effect.fileWrite "/usr/local/bin/clamav-scan")
    emit (Effect.chmod "/usr/local/bin/clamav-scan")
    emit (Effect.logInfo "Created ClamAV wrapper script: /usr/local/bin/clamav-scan")
  else
    emit (Effect.logError "Failed to create wrapper script: OSError")

/-- `_ClamAVConfig.configure(args)` (source lines 23-69).  The method body
makes no reference to `args.dry_run`; the `dry_run` parameter is carried
only to state claims about it. -/
def ClamAVConfig.configure (opkg : OpkgHelper) (dry_run : Bool)
    (env : ClamAVEnv) : M Unit := do
  let i1 ← OpkgHelper.is_installed opkg "clamav"
  let i2 ← OpkgHelper.is_installed opkg "clamav-daemon"
  let i3 ← OpkgHelper.is_installed opkg "clamav-freshclam"
  let installed_packages :=
    (ClamAVConfig.package_names.zip [i1, i2, i3]).filterMap
      (fun p => if p.2 then some p.1 else none)
  if installed_packages.isEmpty then do
    emit (Effect.print "Installing ClamAV packages...")
    ClamAVConfig.install_clamav_packages opkg env
    ClamAVConfig.fix_dns_configuration env
  else
    emit (Effect.print ("ClamAV packages already installed: " ++
      String.intercalate ", " installed_packages))
  ClamAVConfig.configure_clamav_files env
  ClamAVConfig.create_wrapper_script env
  emit (Effect.print ("\n" ++ sep60))
  emit (Effect.print "CLAMAV INSTALLATION COMPLETED")
  emit (Effect.print sep60)
  emit (Effect.print "* ClamAV packages installed")
  emit (Effect.print "* Configuration files created")
  emit (Effect.print "* Manual-only operation configured")
  emit (Effect.print "* Wrapper script created: /usr/local/bin/clamav-scan")
  emit (Effect.print "")
  emit (Effect.print " VIRUS SIGNATURES NOT INSTALLED")
  emit (Effect.print "ClamAV requires virus signature databases to function.")
  emit (Effect.print "")
  emit (Effect.print "TO INSTALL VIRUS SIGNATURES, CHOOSE ONE METHOD:")
  emit (Effect.print "")
  emit (Effect.print "1. ONLINE METHOD (if network available):")
  emit (Effect.print "   sudo freshclam")
  emit (Effect.print "")
  emit (Effect.print "2. OFFLINE METHOD (using IPK packages):")
  emit (Effect.print "   - Download clamav-db-*.ipk from your package source")
  emit (Effect.print "   - Copy to target system")
  emit (Effect.print "   - Install: sudo opkg install clamav-db-*.ipk")
  emit (Effect.print "")
  emit (Effect.print "3. MANUAL FILE COPY:")
  emit (Effect.print "   - Copy *.cvd and *.cld files to /var/lib/clamav/")
  emit (Effect.print "   - Set ownership: sudo chown clamav:clamav /var/lib/clamav/*")
  emit (Effect.print "")
  emit (Effect.print "USAGE AFTER SIGNATURE INSTALLATION:")
  emit (Effect.print "- To scan: sudo clamav-scan")
  emit (Effect.print "- To update signatures: sudo freshclam")
  emit (Effect.print "- To verify installation: nilrt-snac verify clamav")
  emit (Effect.print sep60)

/-! ## Basic laws of the effect monad -/

theorem outcome_bind {α β : Type} (x : M α) (f : α → M β) :
    outcome (x >>= f) =
      match outcome x with
      | Except.ok a => outcome (f a)
      | Except.error e => Except.error e := by
  obtain ⟨evs, r⟩ := x
  cases r with
  | ok a =>
      show outcome (let p := f a; (evs ++ p.1, p.2)) = outcome (f a)
      rfl
  | error e => rfl

theorem trace_bind {α β : Type} (x : M α) (f : α → M β) :
    trace (x >>= f) =
      trace x ++
        (match outcome x with
         | Except.ok a => trace (f a)
         | Except.error _ => []) := by
  obtain ⟨evs, r⟩ := x
  cases r with
  | ok a =>
      show trace (let p := f a; (evs ++ p.1, p.2)) = evs ++ trace (f a)
      rfl
  | error e =>
      show evs = evs ++ []
      exact (List.append_nil evs).symm

theorem outcome_pure {α : Type} (a : α) : outcome (pure a : M α) = Except.ok a := rfl

theorem trace_pure {α : Type} (a : α) : trace (pure a : M α) = [] := rfl

theorem outcome_emit (e : Effect) : outcome (emit e) = Except.ok () := rfl

theorem trace_emit (e : Effect) : trace (emit e) = [e] := rfl

theorem outcome_raise {α : Type} (e : PyExc) :
    outcome (raiseExc e : M α) = Except.error e := rfl

theorem trace_raise {α : Type} (e : PyExc) : trace (raiseExc e : M α) = [] := rfl

theorem outcome_pair {α : Type} (evs : List Effect) (r : Except PyExc α) :
    outcome (evs, r) = r := rfl

theorem trace_pair {α : Type} (evs : List Effect) (r : Except PyExc α) :
    trace (evs, r) = evs := rfl

theorem outcome_tryCatch {α : Type} (x : M α) (handler : PyExc → Option (M α)) :
    outcome (tryCatch x handler) =
      match outcome x with
      | Except.ok a => Except.ok a
      | Except.error e =>
          match handler e with
          | some h => outcome h
          | none => Except.error e := by
  obtain ⟨evs, r⟩ := x
  cases r with
  | ok a => rfl
  | error e =>
      show outcome
        (match handler e with
         | some h => (evs ++ h.1, h.2)
         | none => (evs, Except.error e)) =
        match handler e with
        | some h => outcome h
        | none => Except.error e
      cases handler e with
      | none => rfl
      | some hm => rfl

/-! ## C6: Subprocess Relay behaviour -/

/-- C6: `run_with_logging` with the must-succeed flag (defaulting to true)
raises a nonzero-exit error carrying the command and the exit code when the
flag is set and the process exits non-zero; otherwise it returns a
completed-process record with the original command tokens, the actual exit
code, and the concatenation of all captured output lines. -/
theorem C6_run_with_logging_spec (args : List String) (checkKwarg : Option Bool)
    (beh : ProcBehavior) :
    ((checkKwarg.getD true = true ∧ beh.returncode ≠ 0) →
      run_with_logging args checkKwarg beh =
        Except.error (PyExc.calledProcessError args beh.returncode)) ∧
    ((checkKwarg.getD true = false ∨ beh.returncode = 0) →
      run_with_logging args checkKwarg beh =
        Except.ok ⟨args, beh.returncode, String.join beh.lines⟩) := by
  have hjoin : (if beh.lines.isEmpty then "" else String.join beh.lines) =
      String.join beh.lines := by
    rcases hl : beh.lines with _ | ⟨a, l⟩
    · simp [String.join]
    · simp
  constructor
  · rintro ⟨hc, hn⟩
    simp [run_with_logging, hc, hn]
  · intro h
    rcases h with hc | hz
    · simp [run_with_logging, hc, hjoin]
      intro hl
      rw [hl]
      rfl
    · simp [run_with_logging, hz, hjoin]
      intro hl
      rw [hl]
      rfl

/-- C6 witness: the relay raises on a non-zero exit with the default flag,
and returns the full record when the flag is cleared. -/
theorem C6_run_with_logging_spec_witness :
    ((some true : Option Bool).getD true = true ∧ (1 : Int) ≠ 0) ∧
    run_with_logging ["opkg", "update"] (some true) ⟨["x\n"], 1⟩ =
      Except.error (PyExc.calledProcessError ["opkg", "update"] 1) ∧
    run_with_logging ["ls"] (some false) ⟨["a\n", "b\n"], 1⟩ =
      Except.ok ⟨["ls"], 1, "a\nb\n"⟩ := by
  refine ⟨⟨rfl, by decide⟩, ?_, ?_⟩
  · exact (C6_run_with_logging_spec ["opkg", "update"] (some true) ⟨["x\n"], 1⟩).1
      ⟨rfl, by decide⟩
  · have h := (C6_run_with_logging_spec ["ls"] (some false) ⟨["a\n", "b\n"], 1⟩).2
      (Or.inl rfl)
    rw [h]
    rfl

/-! ## C4: stream and handler restoration -/

/-- Redirecting every stream handler and then restoring the recorded
original streams is the identity on the handler list. -/
theorem restoreHandlers_redirectHandlers (tee : Nat) (hs : List Handler) :
    restoreHandlers (redirectHandlers tee hs).1 (redirectHandlers tee hs).2 = hs := by
  induction hs with
  | nil => rfl
  | cons h t ih =>
      obtain ⟨iS, s⟩ := h
      cases iS <;> simp [redirectHandlers, restoreHandlers, ih]

/-- C4: on every exit path of an audit log session — normal return or
exception raised by the body, and also a failed entry — `sys.stdout`,
`sys.stderr` and every stream-based logging handler's stream end up exactly
as they were before the session began. -/
theorem C4_session_restores_process_state (meta : LogMeta) (command : String)
    (args : List String) (env : SessionEnv) (fs : List (String × String))
    (body : Except PyExc Unit) (st : ProcState) :
    (logging_context meta command args env fs body st).final = st := by
  obtain ⟨so, se, hl⟩ := st
  by_cases h1 : (fs.map Prod.fst).contains
      (LOG_DIR ++ generate_log_filename command env.now) = true
  · simp only [logging_context]
    rw [if_pos h1]
  · by_cases h2 : env.permDenied = true
    · simp only [logging_context]
      rw [if_neg h1, if_pos h2]
    · simp only [logging_context]
      rw [if_neg h1, if_neg h2]
      show ProcState.mk so se
        (restoreHandlers (redirectHandlers env.teeErrId hl).1
          (redirectHandlers env.teeErrId hl).2) = ProcState.mk so se hl
      rw [restoreHandlers_redirectHandlers]

/-! ## C9: the footer always records exit code 0 -/

/-- C9: whenever the session opened its log file, the footer call receives
the constant return code 0 — whether the wrapped body returned normally or
raised — and the footer text written into the log renders that 0. -/
theorem C9_footer_exit_code_constant (meta : LogMeta) (command : String)
    (args : List String) (env : SessionEnv) (fs : List (String × String))
    (body : Except PyExc Unit) (st : ProcState)
    (hopen : (fs.map Prod.fst).contains
      (LOG_DIR ++ generate_log_filename command env.now) = false)
    (hperm : env.permDenied = false) :
    (logging_context meta command args env fs body st).footerCode = some 0 ∧
    (env.cleanupOk = true →
      (logging_context meta command args env fs body st).fs =
        fs ++ [(LOG_DIR ++ generate_log_filename command env.now,
          headerText meta command args env.now ++ footerText env.endTime 0)]) := by
  have h1 : ¬ ((fs.map Prod.fst).contains
      (LOG_DIR ++ generate_log_filename command env.now) = true) := by
    rw [hopen]; exact Bool.false_ne_true
  have h2 : ¬ (env.permDenied = true) := by
    rw [hperm]; exact Bool.false_ne_true
  constructor
  · simp only [logging_context]
    rw [if_neg h1, if_neg h2]
  · intro hclean
    simp only [logging_context]
    rw [if_neg h1, if_neg h2]
    show fs ++ [(_, if env.cleanupOk = true then _ else _)] = _
    rw [if_pos hclean]

/-- C9 witness: a session whose body raises still passes 0 to the footer. -/
theorem C9_footer_exit_code_constant_witness :
    (([] : List (String × String)).map Prod.fst).contains
      (LOG_DIR ++ generate_log_filename "verify" ⟨2025, 10, 15, 14, 30, 22⟩) = false ∧
    (logging_context ⟨"root", 0, "nilrt", "3.11.0", "Linux"⟩ "verify" []
        ⟨⟨2025, 10, 15, 14, 30, 22⟩, ⟨2025, 10, 15, 14, 31, 5⟩, true, false, 100, 101, true⟩
        [] (Except.error (PyExc.oserror "body failed"))
        ⟨1, 2, [⟨true, 2⟩]⟩).footerCode = some 0 := by
  refine ⟨by decide, ?_⟩
  exact (C9_footer_exit_code_constant ⟨"root", 0, "nilrt", "3.11.0", "Linux"⟩
    "verify" [] ⟨⟨2025, 10, 15, 14, 30, 22⟩, ⟨2025, 10, 15, 14, 31, 5⟩, true, false, 100, 101, true⟩
    [] (Except.error (PyExc.oserror "body failed")) ⟨1, 2, [⟨true, 2⟩]⟩
    (by decide) rfl).1

/-! ## C10: a failed open leaves the process untouched -/

/-- C10: when opening the log file fails during session entry (the path
already exists, or the open is denied), the session leaves `sys.stdout`,
`sys.stderr` and the handler list unchanged, writes no header or footer
(the filesystem is untouched), produces no log-location announcement, and
propagates the error. -/
theorem C10_failed_open_leaves_state_unchanged (meta : LogMeta) (command : String)
    (args : List String) (env : SessionEnv) (fs : List (String × String))
    (body : Except PyExc Unit) (st : ProcState)
    (h : (fs.map Prod.fst).contains
        (LOG_DIR ++ generate_log_filename command env.now) = true ∨
      env.permDenied = true) :
    (logging_context meta command args env fs body st).final = st ∧
    (logging_context meta command args env fs body st).fs = fs ∧
    (logging_context meta command args env fs body st).consoleOut = [] ∧
    (logging_context meta command args env fs body st).footerCode = none ∧
    ∃ e, (logging_context meta command args env fs body st).outcome =
      Except.error e := by
  obtain ⟨so, se, hl⟩ := st
  by_cases hex : (fs.map Prod.fst).contains
      (LOG_DIR ++ generate_log_filename command env.now) = true
  · refine ⟨?_, ?_, ?_, ?_, PyExc.fileExists, ?_⟩ <;>
      · simp only [logging_context]
        rw [if_pos hex]
  · have hperm : env.permDenied = true := by
      rcases h with h | h
      · exact absurd h hex
      · exact h
    refine ⟨?_, ?_, ?_, ?_, PyExc.oserror "Permission denied", ?_⟩ <;>
      · simp only [logging_context]
        rw [if_neg hex, if_pos hperm]

/-- C10 witness: a colliding filename aborts the session with the
filesystem (and so the old log content) untouched. -/
theorem C10_failed_open_leaves_state_unchanged_witness :
    ((([(LOG_DIR ++ generate_log_filename "verify" ⟨2025, 10, 15, 14, 30, 22⟩,
        "old content")]).map Prod.fst).contains
      (LOG_DIR ++ generate_log_filename "verify" ⟨2025, 10, 15, 14, 30, 22⟩) = true) ∧
    (logging_context ⟨"root", 0, "nilrt", "3.11.0", "Linux"⟩ "verify" []
      ⟨⟨2025, 10, 15, 14, 30, 22⟩, ⟨2025, 10, 15, 14, 31, 5⟩, true, false, 100, 101, true⟩
      [(LOG_DIR ++ generate_log_filename "verify" ⟨2025, 10, 15, 14, 30, 22⟩,
        "old content")]
      (Except.ok ()) ⟨1, 2, [⟨true, 2⟩]⟩).fs =
      [(LOG_DIR ++ generate_log_filename "verify" ⟨2025, 10, 15, 14, 30, 22⟩,
        "old content")] := by
  refine ⟨by decide, ?_⟩
  exact (C10_failed_open_leaves_state_unchanged ⟨"root", 0, "nilrt", "3.11.0", "Linux"⟩
    "verify" [] ⟨⟨2025, 10, 15, 14, 30, 22⟩, ⟨2025, 10, 15, 14, 31, 5⟩, true, false, 100, 101, true⟩
    [(LOG_DIR ++ generate_log_filename "verify" ⟨2025, 10, 15, 14, 30, 22⟩, "old content")]
    (Except.ok ()) ⟨1, 2, [⟨true, 2⟩]⟩ (Or.inl (by decide))).2.1

/-! ## C3: log-side failures are swallowed with one warning -/

/-- C3: when the log-file write or flush raises during `_TeeStream.write`,
the exception is swallowed — the call still returns the character count of
the console write, so the data already sent to the console is unaffected —
and the console receives exactly the data followed by one warning line for
that failure. -/
theorem C3_teewrite_swallows_log_failures (beh : LogFileBehavior) (data : String)
    (h : LogFileBehavior.fails beh) :
    ∃ e evs, LogFileBehavior.failMsg beh = some e ∧
      TeeStream.write beh data = Except.ok (data.length, evs) ∧
      consoleChunks evs = [data, warningText e] := by
  obtain ⟨wr, fr⟩ := beh
  cases wr with
  | error e =>
      exact ⟨e, [Ev.cw data, Ev.cf, Ev.cw (warningText e)], rfl, rfl, rfl⟩
  | ok n =>
      cases fr with
      | error e =>
          exact ⟨e, [Ev.cw data, Ev.cf, Ev.lw data, Ev.cw (warningText e)],
            rfl, rfl, rfl⟩
      | ok u =>
          rcases h with h | h <;> simp [Except.isOk, Except.toBool] at h

/-- C3 witness: a write whose log side raises `disk full` returns normally
with the console receiving the data and a single warning line. -/
theorem C3_teewrite_swallows_log_failures_witness :
    LogFileBehavior.fails ⟨Except.error "disk full", Except.ok ()⟩ ∧
    ∃ e evs,
      LogFileBehavior.failMsg ⟨Except.error "disk full", Except.ok ()⟩ = some e ∧
      TeeStream.write ⟨Except.error "disk full", Except.ok ()⟩ "hello" =
        Except.ok ("hello".length, evs) ∧
      consoleChunks evs = ["hello", warningText e] :=
  ⟨Or.inl rfl,
   C3_teewrite_swallows_log_failures ⟨Except.error "disk full", Except.ok ()⟩
     "hello" (Or.inl rfl)⟩

/-! ## C8: order preservation through the tee -/

theorem consoleChunks_append (a b : List Ev) :
    consoleChunks (a ++ b) = consoleChunks a ++ consoleChunks b :=
  List.filterMap_append a b _

theorem logChunks_append (a b : List Ev) :
    logChunks (a ++ b) = logChunks a ++ logChunks b :=
  List.filterMap_append a b _

theorem writeEvents_ok (n : Nat) (u : Unit) (data : String) :
    TeeStream.writeEvents ⟨Except.ok n, Except.ok u⟩ data =
      [Ev.cw data, Ev.cf, Ev.lw data, Ev.lf] := rfl

/-- C8: (i) for a sequence of writes whose log side always succeeds, the
console stream and the log file receive the same chunks in the same
relative order; (ii) every single write goes to the original console stream
first, with an immediate flush, before any log-file operation; (iii) a
write whose log-file write fails contributes nothing to the log file, still
delivers the data to the console, and does not raise. -/
theorem C8_tee_order_preservation :
    (∀ ws : List (LogFileBehavior × String),
      (∀ p ∈ ws, p.1.writeRes.isOk = true ∧ p.1.flushRes.isOk = true) →
      consoleChunks (teeRun ws) = ws.map Prod.snd ∧
      logChunks (teeRun ws) = ws.map Prod.snd) ∧
    (∀ (beh : LogFileBehavior) (data : String),
      ∃ rest, TeeStream.writeEvents beh data = Ev.cw data :: Ev.cf :: rest) ∧
    (∀ (beh : LogFileBehavior) (data : String),
      beh.writeRes.isOk = false →
      logChunks (TeeStream.writeEvents beh data) = [] ∧
      (consoleChunks (TeeStream.writeEvents beh data)).head? = some data ∧
      (TeeStream.write beh data).isOk = true) := by
  refine ⟨?_, ?_, ?_⟩
  · intro ws h
    induction ws with
    | nil => exact ⟨rfl, rfl⟩
    | cons p rest ih =>
        obtain ⟨⟨wr, fr⟩, data⟩ := p
        obtain ⟨h1, h2⟩ := h _ (List.mem_cons_self _ _)
        have ih' := ih fun q hq => h q (List.mem_cons_of_mem _ hq)
        cases wr with
        | error e => simp [Except.isOk, Except.toBool] at h1
        | ok n =>
            cases fr with
            | error e => simp [Except.isOk, Except.toBool] at h2
            | ok u =>
                have hrun : teeRun ((⟨⟨Except.ok n, Except.ok u⟩, data⟩ :
                    LogFileBehavior × String) :: rest) =
                    [Ev.cw data, Ev.cf, Ev.lw data, Ev.lf] ++ teeRun rest := by
                  simp [teeRun, TeeStream.writeEvents, TeeStream.write]
                rw [hrun]
                constructor
                · rw [consoleChunks_append, ih'.1]
                  rfl
                · rw [logChunks_append, ih'.2]
                  rfl
  · intro beh data
    obtain ⟨wr, fr⟩ := beh
    cases wr with
    | error e => exact ⟨[Ev.cw (warningText e)], rfl⟩
    | ok n =>
        cases fr with
        | error e => exact ⟨[Ev.lw data, Ev.cw (warningText e)], rfl⟩
        | ok u => exact ⟨[Ev.lw data, Ev.lf], rfl⟩
  · intro beh data hfail
    obtain ⟨wr, fr⟩ := beh
    cases wr with
    | error e => exact ⟨rfl, rfl, rfl⟩
    | ok n => simp [Except.isOk, Except.toBool] at hfail

/-- C8 witness: two clean writes produce identical console and log chunk
sequences, and a failing write keeps the console side while the log side
stays empty. -/
theorem C8_tee_order_preservation_witness :
    (∀ p ∈ ([(⟨Except.ok 1, Except.ok ()⟩, "a"), (⟨Except.ok 1, Except.ok ()⟩, "b")] :
        List (LogFileBehavior × String)),
      p.1.writeRes.isOk = true ∧ p.1.flushRes.isOk = true) ∧
    consoleChunks (teeRun
      [(⟨Except.ok 1, Except.ok ()⟩, "a"), (⟨Except.ok 1, Except.ok ()⟩, "b")]) =
      ["a", "b"] ∧
    logChunks (teeRun
      [(⟨Except.ok 1, Except.ok ()⟩, "a"), (⟨Except.ok 1, Except.ok ()⟩, "b")]) =
      ["a", "b"] ∧
    logChunks (TeeStream.writeEvents ⟨Except.error "gone", Except.ok ()⟩ "c") = [] := by
  refine ⟨?_, ?_, ?_, ?_⟩
  · intro p hp
    fin_cases hp <;> exact ⟨rfl, rfl⟩
  · exact (C8_tee_order_preservation.1 _ (by intro p hp; fin_cases hp <;>
      exact ⟨rfl, rfl⟩)).1
  · exact (C8_tee_order_preservation.1 _ (by intro p hp; fin_cases hp <;>
      exact ⟨rfl, rfl⟩)).2
  · exact (C8_tee_order_preservation.2.2 ⟨Except.error "gone", Except.ok ()⟩ "c" rfl).1

/-! ## C5: distinct filenames and exclusive creation -/

/-- ASCII digit characters are distinct for distinct digits. -/
theorem digitChar_inj : ∀ a, a < 10 → ∀ b, b < 10 →
    digitChar a = digitChar b → a = b := by decide

/-- The wall-clock fields lie in the ranges the zero-padded rendering is
faithful for (the true calendar ranges are strictly tighter). -/
def DateTime.fieldsInRange (t : DateTime) : Prop :=
  t.year < 10000 ∧ t.month < 100 ∧ t.day < 100 ∧ t.hour < 100 ∧
    t.minute < 100 ∧ t.second < 100

instance (t : DateTime) : Decidable (DateTime.fieldsInRange t) := by
  unfold DateTime.fieldsInRange
  infer_instance

/-- `strftime("%Y%m%d-%H%M%S")` is injective on in-range wall-clock
readings. -/
theorem strftimeTimestamp_inj (t1 t2 : DateTime)
    (h1 : DateTime.fieldsInRange t1) (h2 : DateTime.fieldsInRange t2)
    (heq : strftimeTimestamp t1 = strftimeTimestamp t2) : t1 = t2 := by
  obtain ⟨y1, mo1, d1, hh1, mi1, s1⟩ := t1
  obtain ⟨y2, mo2, d2, hh2, mi2, s2⟩ := t2
  simp only [DateTime.fieldsInRange] at h1 h2
  obtain ⟨hy1, hmo1, hd1, hhh1, hmi1, hs1⟩ := h1
  obtain ⟨hy2, hmo2, hd2, hhh2, hmi2, hs2⟩ := h2
  simp only [strftimeTimestamp, pad4, pad2, List.cons_append,
    List.nil_append] at heq
  have heqd := congrArg String.data heq
  simp only [List.cons.injEq, and_true] at heqd
  obtain ⟨e1, e2, e3, e4, e5, e6, e7, e8, e9, e10, e11, e12, e13, e14, e15⟩ := heqd
  have q1 := digitChar_inj _ (by omega) _ (by omega) e1
  have q2 := digitChar_inj _ (by omega) _ (by omega) e2
  have q3 := digitChar_inj _ (by omega) _ (by omega) e3
  have q4 := digitChar_inj _ (by omega) _ (by omega) e4
  have q5 := digitChar_inj _ (by omega) _ (by omega) e5
  have q6 := digitChar_inj _ (by omega) _ (by omega) e6
  have q7 := digitChar_inj _ (by omega) _ (by omega) e7
  have q8 := digitChar_inj _ (by omega) _ (by omega) e8
  have q10 := digitChar_inj _ (by omega) _ (by omega) e10
  have q11 := digitChar_inj _ (by omega) _ (by omega) e11
  have q12 := digitChar_inj _ (by omega) _ (by omega) e12
  have q13 := digitChar_inj _ (by omega) _ (by omega) e13
  have q14 := digitChar_inj _ (by omega) _ (by omega) e14
  have q15 := digitChar_inj _ (by omega) _ (by omega) e15
  simp only [DateTime.mk.injEq]
  refine ⟨by omega, by omega, by omega, by omega, by omega, by omega⟩

/-- C5: within the same command, wall-clock readings that differ (in
particular by at least one second) give distinct log filenames, and a
session whose computed path already exists fails with the already-exists
error, leaving the filesystem (so the existing file's content) untouched. -/
theorem C5_filename_distinct_and_exclusive_create :
    (∀ (command : String) (t1 t2 : DateTime), DateTime.fieldsInRange t1 →
      DateTime.fieldsInRange t2 → t1 ≠ t2 →
      generate_log_filename command t1 ≠ generate_log_filename command t2) ∧
    (∀ (meta : LogMeta) (command : String) (args : List String)
      (env : SessionEnv) (fs : List (String × String)) (body : Except PyExc Unit)
      (st : ProcState),
      (fs.map Prod.fst).contains
        (LOG_DIR ++ generate_log_filename command env.now) = true →
      (logging_context meta command args env fs body st).outcome =
        Except.error PyExc.fileExists ∧
      (logging_context meta command args env fs body st).fs = fs) := by
  constructor
  · intro command t1 t2 h1 h2 hne hfn
    apply hne
    have hd := congrArg String.data hfn
    simp only [generate_log_filename, String.data_append] at hd
    have hd2 : (strftimeTimestamp t1).data = (strftimeTimestamp t2).data := by
      have ha := List.append_cancel_right hd
      exact List.append_cancel_left ha
    exact strftimeTimestamp_inj t1 t2 h1 h2 (String.ext hd2)
  · intro meta command args env fs body st hmem
    constructor <;>
      · simp only [logging_context]
        rw [if_pos hmem]

/-- C5 witness: two readings one second apart give different filenames, and
a colliding path aborts with the already-exists error. -/
theorem C5_filename_distinct_and_exclusive_create_witness :
    DateTime.fieldsInRange ⟨2025, 10, 15, 14, 30, 22⟩ ∧
    DateTime.fieldsInRange ⟨2025, 10, 15, 14, 30, 23⟩ ∧
    (⟨2025, 10, 15, 14, 30, 22⟩ : DateTime) ≠ ⟨2025, 10, 15, 14, 30, 23⟩ ∧
    generate_log_filename "configure" ⟨2025, 10, 15, 14, 30, 22⟩ ≠
      generate_log_filename "configure" ⟨2025, 10, 15, 14, 30, 23⟩ ∧
    (logging_context ⟨"root", 0, "nilrt", "3.11.0", "Linux"⟩ "configure" []
      ⟨⟨2025, 10, 15, 14, 30, 22⟩, ⟨2025, 10, 15, 14, 31, 5⟩, true, false, 100, 101, true⟩
      [(LOG_DIR ++ generate_log_filename "configure" ⟨2025, 10, 15, 14, 30, 22⟩, "x")]
      (Except.ok ()) ⟨1, 2, []⟩).outcome = Except.error PyExc.fileExists := by
  refine ⟨by decide, by decide, by decide, ?_, ?_⟩
  · exact C5_filename_distinct_and_exclusive_create.1 "configure"
      ⟨2025, 10, 15, 14, 30, 22⟩ ⟨2025, 10, 15, 14, 30, 23⟩
      (by decide) (by decide) (by decide)
  · exact (C5_filename_distinct_and_exclusive_create.2
      ⟨"root", 0, "nilrt", "3.11.0", "Linux"⟩ "configure" []
      ⟨⟨2025, 10, 15, 14, 30, 22⟩, ⟨2025, 10, 15, 14, 31, 5⟩, true, false, 100, 101, true⟩
      [(LOG_DIR ++ generate_log_filename "configure" ⟨2025, 10, 15, 14, 30, 22⟩, "x")]
      (Except.ok ()) ⟨1, 2, []⟩ (by decide)).1

/-! ## C1: the firewall verify never returns a boolean -/

/-- C1: `_FirewallConfig.verify` raises `TypeError` on every run (shown here
for dry-run invocations, where no subprocess outcome can interfere): the
call `_check_service_info("ni-labview-realtime", "--get-ports", "3079/tcp")`
supplies three arguments for four required positional parameters.  The
aggregate can therefore never be returned; moreover the preceding
`valid = all([...])` assignment discards the `valid = False` verdicts of
the pidof and firewall-cmd checks, so the claimed accumulation fails even
with the call repaired. -/
theorem C1_firewall_verify_always_raises (env : FirewallEnv) :
    outcome (FirewallConfig.verify true env) = Except.error PyExc.typeError := by
  unfold FirewallConfig.verify
  rcases hp : pyInt (env.go "pidof -x /usr/sbin/firewalld") with _ | pid <;>
    simp [outcome_bind, outcome_pair, outcome_pure, outcome_tryCatch,
      getoutputM, fw_cmd, check_target, check_service, emit, raiseExc, hp]

/-! ## C2: dry-run honouring across the modules -/

/-- C2 counterexample: with the dry-run flag set and every ClamAV package
already installed, `_ClamAVConfig.configure` still performs state-mutating
external calls (directory creation, configuration-file writes, permission
changes, service disabling) — its body never consults the flag. -/
theorem C2_counterexample_clamav_dry_run_mutates :
    mutations (ClamAVConfig.configure
      ⟨true, fun _ => true, fun _ => false, fun _ => false, false⟩ true
      ⟨false, false, false, false, true, false, true, "nameserver 1.1.1.1",
        false, false, 0, true, true, true, true, true, true⟩) ≠ [] := by
  decide

/-- C2 amended: for every Config Module except ClamAV, `configure` with the
dry-run flag set performs zero state-mutating external calls — the direct
subprocess mutations are short-circuited into `Dry run: would have ...`
prints (console, firewall, NIAuth) or skipped by an early return (auditd,
syslog-ng), and the package-manager helper (spec-modelled) prints instead
of mutating; the ClamAV module's `configure` ignores the flag. -/
theorem C2_amended_dry_run_no_mutations_except_clamav
    (installed instF remF : String → Bool) (updF : Bool)
    (cEnv : ConsoleEnv) (sEnv : SyslogEnv) (aEnv : AuditdEnv)
    (nEnv : NIAuthEnv) (fEnv : FirewallEnv) :
    mutations (ConsoleConfig.configure ⟨true, installed, instF, remF, updF⟩
      true cEnv) = [] ∧
    mutations (SyslogConfig.configure ⟨true, installed, instF, remF, updF⟩
      true sEnv) = [] ∧
    mutations (AuditdConfig.configure ⟨true, installed, instF, remF, updF⟩
      true aEnv) = [] ∧
    mutations (NIAuthConfig.configure ⟨true, installed, instF, remF, updF⟩
      true nEnv) = [] ∧
    mutations (FirewallConfig.configure ⟨true, installed, instF, remF, updF⟩
      true fEnv) = [] ∧
    Effect.print "Dry run: would have run passwd -d root" ∈
      trace (NIAuthConfig.configure ⟨true, installed, instF, remF, updF⟩
        true nEnv) ∧
    Effect.print "Dry run: would have run nirtcfg --set section=systemsettings,token=consoleout.enabled,value=False" ∈
      trace (ConsoleConfig.configure ⟨true, installed, instF, remF, updF⟩
        true cEnv) := by
  refine ⟨rfl, rfl, rfl, ?_, rfl, ?_, ?_⟩
  · cases hni : installed "nilrt-snac-conflicts" <;>
      · simp only [NIAuthConfig.configure, OpkgHelper.is_installed]
        rw [hni]
        rfl
  · cases hni : installed "nilrt-snac-conflicts" with
    | false =>
        simp only [NIAuthConfig.configure, OpkgHelper.is_installed]
        rw [hni]
        show Effect.print "Dry run: would have run passwd -d root" ∈
          [Effect.print "Removing NIAuth...",
           Effect.print "Dry run: would have run opkg remove ni-auth",
           Effect.print "Dry run: would have run opkg remove niacctbase-sudo",
           Effect.opkgQuery "nilrt-snac-conflicts",
           Effect.print ("Dry run: would have run opkg install " ++
             (SNAC_DATA_DIR ++ "/nilrt-snac-conflicts.ipk")),
           Effect.logDebug "Removing root password",
           Effect.print "Dry run: would have run passwd -d root"]
        decide
    | true =>
        simp only [NIAuthConfig.configure, OpkgHelper.is_installed]
        rw [hni]
        show Effect.print "Dry run: would have run passwd -d root" ∈
          [Effect.print "Removing NIAuth...",
           Effect.print "Dry run: would have run opkg remove ni-auth",
           Effect.print "Dry run: would have run opkg remove niacctbase-sudo",
           Effect.opkgQuery "nilrt-snac-conflicts",
           Effect.logDebug "Removing root password",
           Effect.print "Dry run: would have run passwd -d root"]
        decide
  · show Effect.print "Dry run: would have run nirtcfg --set section=systemsettings,token=consoleout.enabled,value=False" ∈
      [Effect.print "Deconfiguring console access...",
       Effect.print "Dry run: would have run nirtcfg --set section=systemsettings,token=consoleout.enabled,value=False",
       Effect.print "Dry run: would have run opkg remove sysconfig-settings-console"]
    decide

/-! ## C7: verify failure semantics -/

/-- C7 counterexample: `_SyslogConfig.verify`, with the `logger` probe
succeeding and the `grep` search exiting non-zero (the ordinary outcome
when the probe message is absent from `/var/log/messages`), raises
`CalledProcessError` to its caller instead of returning `false`. -/
theorem C7_counterexample_syslog_verify_raises :
    outcome (SyslogConfig.verify ⟨0, 0, 1, ""⟩) =
      Except.error (PyExc.calledProcessError
        ["grep", "\"Test log entry for verification\"", "/var/log/messages"] 1) := rfl

/-- C7 amended: a failed comparison inside `verify` is converted into a
`false` result plus a structured-log error and is not raised — but failures
of the external commands that `verify` itself runs with `check=True`
(console's `nirtcfg --get`, syslog-ng's `logger` and `grep`) are not
converted: they propagate as `CalledProcessError` to the caller. -/
theorem C7_amended_verify_failure_semantics :
    (∀ (installed instF remF : String → Bool) (updF : Bool) (out : String)
      (se : Int),
      outcome (ConsoleConfig.verify ⟨true, installed, instF, remF, updF⟩ false
        ⟨se, 0, out⟩) =
        Except.ok ((pyStrip out == "False") &&
          !(installed "sysconfig-settings-console")) ∧
      (pyStrip out ≠ "False" →
        Effect.logError "FOUND: console access not diabled" ∈
          trace (ConsoleConfig.verify ⟨true, installed, instF, remF, updF⟩ false
            ⟨se, 0, out⟩))) ∧
    (∀ (installed instF remF : String → Bool) (updF : Bool) (out : String)
      (se code : Int), code ≠ 0 →
      outcome (ConsoleConfig.verify ⟨true, installed, instF, remF, updF⟩ false
        ⟨se, code, out⟩) =
        Except.error (PyExc.calledProcessError
          ["nirtcfg", "--get", "section=systemsettings,token=consoleout.enabled"]
          code)) ∧
    (∀ env : SyslogEnv, env.loggerExit = 0 → env.grepExit ≠ 0 →
      outcome (SyslogConfig.verify env) =
        Except.error (PyExc.calledProcessError
          ["grep", "\"Test log entry for verification\"", "/var/log/messages"]
          env.grepExit)) := by
  refine ⟨?_, ?_, ?_⟩
  · intro installed instF remF updF out se
    constructor
    · by_cases hm : pyStrip out = "False" <;>
        cases hi : installed "sysconfig-settings-console" <;>
          simp [ConsoleConfig.verify, runQueryChecked, OpkgHelper.is_installed,
            outcome_bind, outcome_pair, outcome_pure, emit, raiseExc, hm, hi]
    · intro hm
      cases hi : installed "sysconfig-settings-console" <;>
        simp [ConsoleConfig.verify, runQueryChecked, OpkgHelper.is_installed,
          trace_bind, trace_pair, trace_pure, outcome_bind, outcome_pair,
          outcome_pure, emit, raiseExc, hm, hi]
  · intro installed instF remF updF out se code hcode
    simp [ConsoleConfig.verify, runQueryChecked, OpkgHelper.is_installed,
      outcome_bind, outcome_pair, outcome_pure, emit, raiseExc, hcode]
  · intro env hlog hgrep
    simp [SyslogConfig.verify, runChecked, runQueryChecked, outcome_bind,
      outcome_pair, outcome_pure, emit, raiseExc, hlog, hgrep]

/-- C7 witness: a mismatching console value folds to `false` (no raise),
and a failing console query or grep search raises. -/
theorem C7_amended_verify_failure_semantics_witness :
    outcome (ConsoleConfig.verify
      ⟨true, fun _ => false, fun _ => false, fun _ => false, false⟩ false
      ⟨0, 0, "True\n"⟩) = Except.ok false ∧
    ((1 : Int) ≠ 0) ∧
    outcome (ConsoleConfig.verify
      ⟨true, fun _ => false, fun _ => false, fun _ => false, false⟩ false
      ⟨0, 1, "True\n"⟩) =
      Except.error (PyExc.calledProcessError
        ["nirtcfg", "--get", "section=systemsettings,token=consoleout.enabled"] 1) ∧
    outcome (SyslogConfig.verify ⟨0, 0, 2, ""⟩) =
      Except.error (PyExc.calledProcessError
        ["grep", "\"Test log entry for verification\"", "/var/log/messages"] 2) := by
  refine ⟨?_, by decide, ?_, ?_⟩
  · have h := (C7_amended_verify_failure_semantics.1 (fun _ => false)
      (fun _ => false) (fun _ => false) false "True\n" 0).1
    rw [h]
    rfl
  · exact C7_amended_verify_failure_semantics.2.1 (fun _ => false)
      (fun _ => false) (fun _ => false) false "True\n" 0 1 (by decide)
  · exact C7_amended_verify_failure_semantics.2.2 ⟨0, 0, 2, ""⟩ rfl (by decide)

end NilrtSnac
